import Mathlib

/-!
Verification of `polars_intro`'s data-download module
(`src/polars_intro/download_data.py`) against its specification.

The module has three download operations:

* `get_data_urls(year)` — pure derivation of the monthly taxi-data URLs for a
  year, with a year-range assertion and a 3-month availability buffer;
* `download_taxi_data(urls, save_dir, **kwargs)` — concurrent batch download
  via `asyncio.gather`, writing each response body to
  `save_dir / Path(url).name` and printing one progress line per file after
  the join;
* `download_weather_data` / `download_weather_codes` — synchronous
  single-file downloads.

The embedding below models the filesystem as an explicit state (a set of
existing directories plus an association list from file path to content),
the HTTP transport as a function from URL to an outcome (transport failure,
or a response carrying a status code and a list of body chunks), and the
nondeterministic completion order of the concurrent batch as an explicit
list of indices (a permutation of `0, ..., N-1`): the downloads' side
effects happen in that order, while `asyncio.gather` places each task's
return value at the task's original position.
-/

namespace PolarsIntro

/-- A calendar date as far as the code consults it: `dt.date.today()` is only
read for its `.year` and `.month` fields. -/
structure Date where
  year : Nat
  month : Nat
deriving DecidableEq, Repr

/-- Zero-padding of a numeral to a given width, as produced by Python format
specs `{n:0>2d}` and `{n:>0{w}}` (fill character `0`, right-aligned). -/
def padZeros (w : Nat) (n : Nat) : String :=
  let s := toString n
  String.mk (List.replicate (w - s.length) '0') ++ s

/-- The fixed URL template of `get_data_urls`:
`https://d37ci6vzurychx.cloudfront.net/trip-data/yellow_tripdata_{year}-{month:0>2d}.parquet`. -/
def taxiUrl (year month : Nat) : String :=
  "https://d37ci6vzurychx.cloudfront.net/trip-data/yellow_tripdata_"
    ++ toString year ++ "-" ++ padZeros 2 month ++ ".parquet"

/-- The informational notice printed by `get_data_urls` when the current year
is requested within its first three months. -/
def yearShiftNotice (lastYear : Nat) : String :=
  "The current year was requested, but data may not yet be available. "
    ++ "Using last year (" ++ toString lastYear ++ ") instead."

/-- The `AssertionError` message of `get_data_urls`'s year-range check. -/
def yearRangeMsg (currentYear givenYear : Nat) : String :=
  "year must be >= 2009 and <= " ++ toString currentYear ++ ", but "
    ++ toString givenYear ++ " was given"

/-- The effective year argument: `if not year: year = dt.date.today().year`.
`year? = none` models an omitted / `None` argument, and Python's `if not
year` also treats `0` as absent (it is falsy), hence the `y = 0` test. -/
def pyYearArg (year? : Option Nat) (today : Date) : Nat :=
  match year? with
  | none => today.year
  | some y => if y = 0 then today.year else y

/--
Model of `get_data_urls(year=None, **kwargs)`.

* The `assert (year >= 2009) and (year <= current_year)` raises
  `AssertionError` (modelled as `Except.error`) with the message built from
  the current year and the given year. The function performs no network or
  filesystem I/O on any path; on the assertion-failure path it does not even
  print.
* If the requested year is the current year: within the first three months
  the year is shifted back by one (printing a notice, returned here as the
  second component of the `ok` value) and all 12 months are used; otherwise
  the end month is `current month - 3`.
* Returns the URLs for months `1, ..., end_month` in ascending order.
-/
def getDataUrls (year? : Option Nat) (today : Date) :
    Except String (List String × List String) :=
  if 2009 ≤ pyYearArg year? today ∧ pyYearArg year? today ≤ today.year then
    if pyYearArg year? today = today.year then
      if today.month ≤ 3 then
        Except.ok ((List.range 12).map (fun m => taxiUrl (today.year - 1) (m + 1)),
          [yearShiftNotice (today.year - 1)])
      else
        Except.ok ((List.range (today.month - 3)).map
          (fun m => taxiUrl (pyYearArg year? today) (m + 1)), [])
    else
      Except.ok ((List.range 12).map
        (fun m => taxiUrl (pyYearArg year? today) (m + 1)), [])
  else
    Except.error (yearRangeMsg today.year (pyYearArg year? today))

/-- The filesystem state: the set of existing directories, and the files as
an association list from path to content (most recent write first, older
entries for the same path removed). -/
structure FS where
  dirs : List String
  files : List (String × String)
deriving DecidableEq, Repr

/-- Content of the file at `p`, if it exists. -/
def readFile (fs : FS) (p : String) : Option String :=
  (fs.files.find? (fun kv => kv.1 == p)).map (fun kv => kv.2)

/-- Opening a file with mode `"bw"` / `"wt"` and writing `c` to it: creates
or truncates the file at `p`. -/
def writeFile (fs : FS) (p c : String) : FS :=
  { fs with files := (p, c) :: fs.files.filter (fun kv => !(kv.1 == p)) }

/-- Model of `Path(d).mkdir(parents=..., exist_ok=...)`: it raises `FileExistsError` when
the directory exists and `exist_ok` is false; otherwise creating an existing
directory is a no-op. (The `parents` flag is irrelevant in this flat model.)
-/
def mkdir (fs : FS) (d : String) ( _parents exist_ok : Bool) : Except String FS :=
  if fs.dirs.contains d then
    if exist_ok then Except.ok fs else Except.error ("FileExistsError: " ++ d)
  else
    Except.ok { fs with dirs := d :: fs.dirs }

/-- The filesystem after `mkdir (..., exist_ok=True)`: unchanged when the
directory exists, the directory added otherwise. -/
def mkdirFS (fs : FS) (d : String) : FS :=
  if fs.dirs.contains d then fs else { fs with dirs := d :: fs.dirs }

/-- Model of `open(dir / name, mode="bw" or "wt")` for writing: it fails with
`FileNotFoundError` when the containing directory does not exist. -/
def openWrite (fs : FS) (dir name c : String) : Except String FS :=
  if fs.dirs.contains dir then
    Except.ok (writeFile fs (dir ++ "/" ++ name) c)
  else
    Except.error ("FileNotFoundError: " ++ dir ++ "/" ++ name)

/-- Characters of the final `/`-separated segment: the accumulator holds the
segment read so far (reversed) and is reset at each `/`. -/
def lastSegAux : List Char → List Char → List Char
  | acc, [] => acc.reverse
  | acc, c :: cs => if c = '/' then lastSegAux [] cs else lastSegAux (c :: acc) cs

/-- Model of `Path(url).name`: the final path segment of the URL (the part after the
last `/`). -/
def pathName (url : String) : String :=
  String.mk (lastSegAux [] url.data)

/-- The destination path of a download: `Path(save_dir) / Path(url).name`. -/
def savePath (saveDir url : String) : String :=
  saveDir ++ "/" ++ pathName url

/-- An HTTP response as the streaming loop consumes it: the status code
(which `download_single_file` never inspects — there is no
`raise_for_status` call) and the body chunks yielded by `aiter_bytes`. -/
structure Response where
  status : Nat
  chunks : List String
deriving DecidableEq, Repr

/-- Outcome of `client.stream("GET", url)`: a transport-level failure
(connection error, DNS failure, ...), which raises, or a response —
regardless of its status code. -/
inductive Fetch where
  | failure (msg : String)
  | response (r : Response)
deriving DecidableEq, Repr

/-- The body a successful fetch writes to disk: the concatenation of the
streamed chunks. -/
def bodyOf (transport : String → Fetch) (url : String) : String :=
  match transport url with
  | Fetch.failure _ => ""
  | Fetch.response r => String.join r.chunks

/-- Observable events of a batch run, in order of occurrence. -/
inductive Event where
  | notice (msg : String)
  | fileWritten (idx : Nat)
  | progressLine (line : String)
deriving DecidableEq, Repr

/--
The joint effect of the `asyncio.gather` over `download_single_file` tasks,
linearized by the completion order `order` (a permutation of the indices of
`urls`): each task, at its completion turn, has opened its destination file
`Path(save_dir) / Path(url).name` with mode `"bw"` — the source's
`"ba" if not filepath.exists else "bw"` always takes the `"bw"` branch,
since `filepath.exists` is an unapplied method object and hence truthy —
and written the streamed body to it. A transport failure raises, aborting
the join (`gather` re-raises the first exception). Indices out of range
cannot arise from a permutation and are skipped.
-/
def runDownloads (transport : String → Fetch) (saveDir : String)
    (urls : List String) : List Nat → FS → Except String (FS × List Event)
  | [], fs => Except.ok (fs, [])
  | i :: rest, fs =>
    match urls[i]? with
    | none => runDownloads transport saveDir urls rest fs
    | some url =>
      match transport url with
      | Fetch.failure msg => Except.error msg
      | Fetch.response r =>
        match openWrite fs saveDir (pathName url) (String.join r.chunks) with
        | Except.error e => Except.error e
        | Except.ok fs' =>
          match runDownloads transport saveDir urls rest fs' with
          | Except.error e => Except.error e
          | Except.ok (fs'', evs) =>
            Except.ok (fs'', Event.fileWritten i :: evs)

/-- The filesystem a successful batch run produces: each completed task, in
completion order, overwrites its destination file with its streamed body.
`runDownloads` computes exactly this filesystem when every fetch returns a
response and the save directory exists (`runDownloads_eq` below). -/
def runFS (transport : String → Fetch) (saveDir : String)
    (urls : List String) : List Nat → FS → FS
  | [], fs => fs
  | i :: rest, fs =>
    match urls[i]? with
    | none => runFS transport saveDir urls rest fs
    | some url =>
      runFS transport saveDir urls rest
        (writeFile fs (savePath saveDir url) (bodyOf transport url))

/-- One progress line:
`f"{i+1:>0{max_digits}}/{total_files:>0{max_digits}} | Downloaded file: {result}"`.
-/
def formatLine (pos total : Nat) (path : String) : String :=
  padZeros (toString total).length pos ++ "/"
    ++ padZeros (toString total).length total
    ++ " | Downloaded file: " ++ path

/-- Model of `if not save_dir: save_dir = "data"`. -/
def normSaveDir (saveDir0 : String) : String :=
  if saveDir0 = "" then "data" else saveDir0

/--
Model of `download_taxi_data(urls=None, save_dir="data", **kwargs)`:

* a falsy `urls` argument (`None`, omitted, or the empty list — all modelled
  by `[]`) is replaced by `get_data_urls(year=kwargs.get("year"))`, whose
  `AssertionError` propagates (the `isinstance(urls, str)` wrapping has no
  counterpart for a `List String` argument);
* a falsy `save_dir` is replaced by `"data"`;
* the save directory is created with `parents=True, exist_ok=True`;
* the downloads run concurrently with completion order `order`; `gather`
  returns their filepaths in original request order;
* after the join, one progress line per result is printed, iterating the
  gathered results in request order (`for i, result in enumerate(results)`).

The returned triple is the final filesystem, the gathered filepaths in
request order (the Batch Result), and the event trace. (The Python function
itself returns `None`; the Batch Result is its internal `results` value,
which is what the progress report and the specification observe.)
-/
def downloadTaxiData (urls0 : List String) (saveDir0 : String)
    (year? : Option Nat) (today : Date) (transport : String → Fetch)
    (order : List Nat) (fs : FS) :
    Except String (FS × List String × List Event) :=
  match (if urls0.isEmpty then getDataUrls year? today
         else Except.ok (urls0, [])) with
  | Except.error e => Except.error e
  | Except.ok (urls, notices) =>
    let saveDir := normSaveDir saveDir0
    match mkdir fs saveDir true true with
    | Except.error e => Except.error e
    | Except.ok fs1 =>
      match runDownloads transport saveDir urls order fs1 with
      | Except.error e => Except.error e
      | Except.ok (fs2, devs) =>
        let results := urls.map (savePath saveDir)
        let total := urls.length
        let lines := results.enum.map (fun p => formatLine (p.1 + 1) total p.2)
        Except.ok (fs2, results,
          notices.map Event.notice ++ devs ++ lines.map Event.progressLine)

/--
The save step of `download_weather_data(..., save_dir="data",
filename="weather.json")`: the API URL construction and date defaulting have
no bearing on the filesystem contract and are elided; `responseText` stands
for `httpx.get(api_url).text`. The source creates the folder
(`Path(save_dir).mkdir(parents=True, exist_ok=True)`) before opening
`save_dir / filename` for writing. Returns the filepath. -/
def downloadWeatherData (saveDir filename responseText : String) (fs : FS) :
    Except String (FS × String) :=
  match mkdir fs saveDir true true with
  | Except.error e => Except.error e
  | Except.ok fs1 =>
    match openWrite fs1 saveDir filename responseText with
    | Except.error e => Except.error e
    | Except.ok fs2 => Except.ok (fs2, saveDir ++ "/" ++ filename)

/--
Model of `download_weather_codes(save_dir="data")`: unlike `download_taxi_data` and
`download_weather_data`, the source contains no `mkdir` call — it goes
straight from building `filepath = Path(save_dir) / "weather_codes.json"` to
`open(filepath, mode="wt", ...)`. `responseText` stands for
`httpx.get(url).text`. Returns the filepath. -/
def downloadWeatherCodes (saveDir responseText : String) (fs : FS) :
    Except String (FS × String) :=
  match openWrite fs saveDir "weather_codes.json" responseText with
  | Except.error e => Except.error e
  | Except.ok fs1 => Except.ok (fs1, saveDir ++ "/" ++ "weather_codes.json")

/-- Projection selecting the progress-line events of a trace. -/
def progressOf : Event → Option String
  | Event.progressLine s => some s
  | _ => none

/-- Projection selecting the completed-download events of a trace. -/
def writtenOf : Event → Option Nat
  | Event.fileWritten i => some i
  | _ => none

/-- A mock transport answering every URL with status 200 and body
`url ++ "!"`. -/
def mockTransport : String → Fetch :=
  fun u => Fetch.response (Response.mk 200 [u, "!"])

/-- A mock transport answering `"h/a"` with a non-success 404 status (and
status 200 elsewhere); every URL still yields a response, none raises. -/
def mockTransport404 : String → Fetch :=
  fun u => Fetch.response (Response.mk (if u = "h/a" then 404 else 200) [u, "!"])

/-- A mock transport for which the retrieval of `"h/b"` fails at the
transport level. -/
def mockTransportFail : String → Fetch :=
  fun u => if u = "h/b" then Fetch.failure "ConnectError" else mockTransport u

/-! ### Filesystem lemmas -/

theorem writeFile_dirs (fs : FS) (p c : String) :
    (writeFile fs p c).dirs = fs.dirs := rfl

theorem find?_filter_ne (l : List (String × String)) (p p' : String)
    (h : p' ≠ p) :
    (l.filter (fun kv => !(kv.1 == p))).find? (fun kv => kv.1 == p') =
      l.find? (fun kv => kv.1 == p') := by
  induction l with
  | nil => rfl
  | cons a t ih =>
    by_cases ha : a.1 = p
    · have h1 : (a.1 == p) = true := beq_iff_eq.mpr ha
      have h2 : (a.1 == p') = false :=
        beq_eq_false_iff_ne.mpr (by rw [ha]; exact Ne.symm h)
      simp [List.filter_cons, List.find?_cons, h1, h2, ih]
    · have h1 : (a.1 == p) = false := beq_eq_false_iff_ne.mpr ha
      by_cases ha' : a.1 = p'
      · have h2 : (a.1 == p') = true := beq_iff_eq.mpr ha'
        simp [List.filter_cons, List.find?_cons, h1, h2]
      · have h2 : (a.1 == p') = false := beq_eq_false_iff_ne.mpr ha'
        simp [List.filter_cons, List.find?_cons, h1, h2, ih]

theorem readFile_writeFile_self (fs : FS) (p c : String) :
    readFile (writeFile fs p c) p = some c := by
  simp [readFile, writeFile, List.find?_cons]

theorem readFile_writeFile_ne (fs : FS) (p c p' : String) (h : p' ≠ p) :
    readFile (writeFile fs p c) p' = readFile fs p' := by
  have : (p == p') = false := by
    simp only [beq_eq_false_iff_ne]
    exact fun hc => h hc.symm
  simp [readFile, writeFile, List.find?_cons, this, find?_filter_ne _ _ _ h]

theorem mkdir_exist_ok (fs : FS) (d : String) (pa : Bool) :
    mkdir fs d pa true = Except.ok (mkdirFS fs d) := by
  unfold mkdir mkdirFS
  split <;> simp

theorem mkdirFS_contains (fs : FS) (d : String) :
    (mkdirFS fs d).dirs.contains d = true := by
  unfold mkdirFS
  split
  · assumption
  · simp

theorem mkdirFS_of_contains (fs : FS) (d : String)
    (h : fs.dirs.contains d = true) : mkdirFS fs d = fs := by
  have hm : d ∈ fs.dirs := by simpa using h
  simp [mkdirFS, hm]

theorem mkdirFS_files (fs : FS) (d : String) :
    (mkdirFS fs d).files = fs.files := by
  unfold mkdirFS
  split <;> rfl

theorem openWrite_of_contains (fs : FS) (dir n c : String)
    (h : fs.dirs.contains dir = true) :
    openWrite fs dir n c = Except.ok (writeFile fs (dir ++ "/" ++ n) c) := by
  have hm : dir ∈ fs.dirs := by simpa using h
  simp [openWrite, hm]

/-! ### Batch-run lemmas -/

theorem bodyOf_response (transport : String → Fetch) (u : String) (r : Response)
    (h : transport u = Fetch.response r) :
    bodyOf transport u = String.join r.chunks := by
  simp [bodyOf, h]

theorem runFS_dirs (transport : String → Fetch) (sd : String)
    (urls : List String) :
    ∀ (order : List Nat) (fs : FS),
      (runFS transport sd urls order fs).dirs = fs.dirs := by
  intro order
  induction order with
  | nil => intro fs; rfl
  | cons i rest ih =>
    intro fs
    cases h : urls[i]? with
    | none => simp only [runFS, h]; exact ih fs
    | some url => simp only [runFS, h]; rw [ih]; rfl

theorem runDownloads_eq (transport : String → Fetch) (sd : String)
    (urls : List String)
    (hsucc : ∀ u ∈ urls, ∃ r, transport u = Fetch.response r) :
    ∀ (order : List Nat), (∀ j ∈ order, j < urls.length) →
      ∀ (fs : FS), fs.dirs.contains sd = true →
        runDownloads transport sd urls order fs =
          Except.ok (runFS transport sd urls order fs,
            order.map Event.fileWritten) := by
  intro order
  induction order with
  | nil => intro _ fs _; rfl
  | cons i rest ih =>
    intro hvalid fs hdir
    have hi : i < urls.length := hvalid i (by simp)
    have hu : urls[i]? = some urls[i] := List.getElem?_eq_getElem hi
    obtain ⟨r, hr⟩ := hsucc urls[i] (List.getElem_mem hi)
    have hrest : ∀ j ∈ rest, j < urls.length := fun j hj =>
      hvalid j (List.mem_cons_of_mem _ hj)
    have hbody : bodyOf transport urls[i] = String.join r.chunks :=
      bodyOf_response transport urls[i] r hr
    have hdir' :
        (writeFile fs (savePath sd urls[i])
          (bodyOf transport urls[i])).dirs.contains sd = true := hdir
    simp only [runDownloads, runFS, hu, hr,
      openWrite_of_contains fs sd (pathName urls[i]) (String.join r.chunks) hdir,
      List.map_cons]
    rw [show sd ++ "/" ++ pathName urls[i] = savePath sd urls[i] from rfl,
      ← hbody, ih hrest _ hdir']

theorem runFS_read_miss (transport : String → Fetch) (sd : String)
    (urls : List String) :
    ∀ (order : List Nat) (fs : FS) (p : String),
      (∀ i ∈ order, ∀ u, urls[i]? = some u → savePath sd u ≠ p) →
      readFile (runFS transport sd urls order fs) p = readFile fs p := by
  intro order
  induction order with
  | nil => intro fs p _; rfl
  | cons i rest ih =>
    intro fs p hmiss
    have hmiss' : ∀ j ∈ rest, ∀ u, urls[j]? = some u → savePath sd u ≠ p :=
      fun j hj => hmiss j (List.mem_cons_of_mem _ hj)
    cases hu : urls[i]? with
    | none =>
      simp only [runFS, hu]
      exact ih fs p hmiss'
    | some url =>
      simp only [runFS, hu]
      rw [ih _ p hmiss']
      exact readFile_writeFile_ne _ _ _ _
        (fun hc => hmiss i (List.mem_cons_self _ _) url hu hc.symm)

theorem runFS_read_hit (transport : String → Fetch) (sd : String)
    (urls : List String) (hnd : (urls.map (savePath sd)).Nodup) :
    ∀ (order : List Nat) (fs : FS) (i : Nat) (u : String),
      i ∈ order → urls[i]? = some u →
      readFile (runFS transport sd urls order fs) (savePath sd u) =
        some (bodyOf transport u) := by
  intro order
  induction order with
  | nil => intro fs i u hmem _; simp at hmem
  | cons j rest ih =>
    intro fs i u hmem hu
    by_cases hir : i ∈ rest
    · cases hj : urls[j]? with
      | none =>
        simp only [runFS, hj]
        exact ih fs i u hir hu
      | some uj =>
        simp only [runFS, hj]
        exact ih _ i u hir hu
    · have hij : i = j := by
        rcases List.mem_cons.mp hmem with h1 | h2
        · exact h1
        · exact absurd h2 hir
      subst hij
      simp only [runFS, hu]
      rw [runFS_read_miss transport sd urls rest _ _ ?hm]
      · exact readFile_writeFile_self _ _ _
      case hm =>
        intro k hk u' hu' hc
        have hk_lt : k < urls.length := (List.getElem?_eq_some_iff.mp hu').1
        have hi_lt : i < urls.length := (List.getElem?_eq_some_iff.mp hu).1
        have h1 : (urls.map (savePath sd))[k]? = some (savePath sd u') := by
          rw [List.getElem?_map, hu']; rfl
        have h2 : (urls.map (savePath sd))[i]? = some (savePath sd u) := by
          rw [List.getElem?_map, hu]; rfl
        have hk_lt' : k < (urls.map (savePath sd)).length := by
          simpa using hk_lt
        have hki : k = i :=
          List.getElem?_inj hk_lt' hnd (by rw [h1, h2, hc])
        exact hir (hki ▸ hk)

theorem find?_eq_of_nodup_map (f : String → String) :
    ∀ (urls : List String), (urls.map f).Nodup →
      ∀ (i : Nat) (u : String), urls[i]? = some u →
        urls.find? (fun u' => f u' == f u) = some u := by
  intro urls
  induction urls with
  | nil => intro _ i u h; simp at h
  | cons x t ih =>
    intro hnd i u hu
    have hnd' : (f x :: t.map f).Nodup := by simpa using hnd
    cases i with
    | zero =>
      have hx : x = u := by simpa using hu
      subst hx
      simp [List.find?_cons]
    | succ k =>
      have ht : t[k]? = some u := by simpa using hu
      have hmem : u ∈ t := List.getElem?_mem ht
      have hfu : f u ∈ t.map f := List.mem_map_of_mem f hmem
      have hfx : f x ∉ t.map f := (List.nodup_cons.mp hnd').1
      have hne : (f x == f u) = false :=
        beq_eq_false_iff_ne.mpr (fun hc => hfx (hc ▸ hfu))
      simp only [List.find?_cons, hne]
      exact ih (List.nodup_cons.mp hnd').2 k u ht

/-! ### `get_data_urls` lemmas -/

theorem getDataUrls_ok_ne_nil (year? : Option Nat) (today : Date)
    (urls notices : List String)
    (h : getDataUrls year? today = Except.ok (urls, notices)) : urls ≠ [] := by
  unfold getDataUrls at h
  split at h
  · split at h
    · split at h
      · simp only [Except.ok.injEq, Prod.mk.injEq] at h
        obtain ⟨h1, _⟩ := h
        subst h1
        simp
      · rename_i hmonth
        simp only [Except.ok.injEq, Prod.mk.injEq] at h
        obtain ⟨h1, _⟩ := h
        subst h1
        simp only [ne_eq, List.map_eq_nil_iff, List.range_eq_nil]
        omega
    · simp only [Except.ok.injEq, Prod.mk.injEq] at h
      obtain ⟨h1, _⟩ := h
      subst h1
      simp
  · exact absurd h (by simp)

/-! ### `download_taxi_data` success lemma -/

theorem downloadTaxiData_eq_ok (urls0 : List String) (saveDir0 : String)
    (year? : Option Nat) (today : Date) (transport : String → Fetch)
    (order : List Nat) (fs : FS) (urls notices : List String)
    (hgot : (if urls0.isEmpty then getDataUrls year? today
             else Except.ok (urls0, [])) = Except.ok (urls, notices))
    (hsucc : ∀ u ∈ urls, ∃ r, transport u = Fetch.response r)
    (hvalid : ∀ j ∈ order, j < urls.length) :
    downloadTaxiData urls0 saveDir0 year? today transport order fs =
      Except.ok
        (runFS transport (normSaveDir saveDir0) urls order
            (mkdirFS fs (normSaveDir saveDir0)),
          urls.map (savePath (normSaveDir saveDir0)),
          notices.map Event.notice ++ order.map Event.fileWritten
            ++ ((urls.map (savePath (normSaveDir saveDir0))).enum.map
                (fun p => Event.progressLine
                  (formatLine (p.1 + 1) urls.length p.2)))) := by
  simp only [downloadTaxiData, hgot, mkdir_exist_ok,
    runDownloads_eq transport (normSaveDir saveDir0) urls hsucc order hvalid
      (mkdirFS fs (normSaveDir saveDir0))
      (mkdirFS_contains fs (normSaveDir saveDir0))]
  simp [List.map_map, Function.comp]

/-- If some task of the batch fails at the transport level, the linearized
`gather` raises, whatever else happens around it. -/
theorem runDownloads_error (transport : String → Fetch) (sd : String)
    (urls : List String) :
    ∀ (order : List Nat) (fs : FS) (i : Nat) (u msg : String),
      i ∈ order → urls[i]? = some u → transport u = Fetch.failure msg →
      ∃ e, runDownloads transport sd urls order fs = Except.error e := by
  intro order
  induction order with
  | nil => intro fs i u msg hmem _ _; simp at hmem
  | cons j rest ih =>
    intro fs i u msg hmem hu hfail
    cases hj : urls[j]? with
    | none =>
      have hij : i ≠ j := by
        intro hc
        rw [hc, hj] at hu
        cases hu
      have hir : i ∈ rest := by
        rcases List.mem_cons.mp hmem with h1 | h2
        · exact absurd h1 hij
        · exact h2
      simp only [runDownloads, hj]
      exact ih fs i u msg hir hu hfail
    | some uj =>
      cases htr : transport uj with
      | failure m =>
        simp only [runDownloads, hj, htr]
        exact ⟨m, rfl⟩
      | response r =>
        have hij : i ≠ j := by
          intro hc
          subst hc
          rw [hu] at hj
          injection hj with hj'
          rw [← hj', hfail] at htr
          cases htr
        have hir : i ∈ rest := by
          rcases List.mem_cons.mp hmem with h1 | h2
          · exact absurd h1 hij
          · exact h2
        cases how : openWrite fs sd (pathName uj) (String.join r.chunks) with
        | error e =>
          simp only [runDownloads, hj, htr, how]
          exact ⟨e, rfl⟩
        | ok fs' =>
          obtain ⟨e, he⟩ := ih fs' i u msg hir hu hfail
          simp only [runDownloads, hj, htr, how, he]
          exact ⟨e, rfl⟩

/-- Bridging `for i, result in enumerate(results)` over `results = urls.map f`
with an index-based description. -/
theorem enum_map_map_eq_range_map {β : Type} (l : List String)
    (f : String → String) (g : Nat → String → β) :
    (l.map f).enum.map (fun p => g p.1 p.2) =
      (List.range l.length).map (fun i => g i (f (l.getD i ""))) := by
  apply List.ext_getElem
  · simp
  · intro i h1 h2
    have hi : i < l.length := by simpa using h1
    simp [List.getElem_map, List.getElem_enum, List.getElem_range,
      List.getD_eq_getElem, hi]

/-! ### Claim theorems -/

/-- C3: for every fixed current date (with a current year the assertion
admits), requesting the current year applies the 3-month safety buffer: when
`current_month > 3` the result is exactly the `current_month - 3` URLs of
the current year, months `1..current_month-3` in ascending order and with no
notice; when `current_month ≤ 3` it is the 12 URLs of the previous year
together with the informational notice. -/
theorem getDataUrls_current_year (today : Date) (hy : 2009 ≤ today.year) :
    (3 < today.month →
      getDataUrls (some today.year) today =
        Except.ok ((List.range (today.month - 3)).map
          (fun k => taxiUrl today.year (k + 1)), [])) ∧
    (today.month ≤ 3 →
      getDataUrls (some today.year) today =
        Except.ok ((List.range 12).map (fun k => taxiUrl (today.year - 1) (k + 1)),
          [yearShiftNotice (today.year - 1)])) := by
  have h0 : ¬ (today.year = 0) := by omega
  have hYA : pyYearArg (some today.year) today = today.year := by
    simp [pyYearArg, h0]
  constructor
  · intro h3
    unfold getDataUrls
    rw [hYA, if_pos ⟨hy, Nat.le_refl _⟩, if_pos rfl, if_neg (by omega)]
  · intro h3
    unfold getDataUrls
    rw [hYA, if_pos ⟨hy, Nat.le_refl _⟩, if_pos rfl, if_pos h3]

/-- Witness for C3: in July 2025 the current year yields the four URLs of
January through April 2025; in February 2025 it yields the twelve URLs of
2024 plus the notice. -/
theorem getDataUrls_current_year_witness :
    getDataUrls (some 2025) ⟨2025, 7⟩ =
      Except.ok ((List.range 4).map (fun k => taxiUrl 2025 (k + 1)), []) ∧
    getDataUrls (some 2025) ⟨2025, 2⟩ =
      Except.ok ((List.range 12).map (fun k => taxiUrl 2024 (k + 1)),
        [yearShiftNotice 2024]) :=
  ⟨(getDataUrls_current_year ⟨2025, 7⟩ (by decide)).1 (by decide),
   (getDataUrls_current_year ⟨2025, 2⟩ (by decide)).2 (by decide)⟩

/-- C4: for every year `Y` with `2009 ≤ Y < current_year`, the result is
exactly the 12 URLs of `Y`, months January through December in ascending
order, each built from the fixed template (`taxiUrl` zero-pads the month to
2 digits). -/
theorem getDataUrls_past_year (y : Nat) (today : Date) (h1 : 2009 ≤ y)
    (h2 : y < today.year) :
    getDataUrls (some y) today =
      Except.ok ((List.range 12).map (fun k => taxiUrl y (k + 1)), []) := by
  have h0 : ¬ (y = 0) := by omega
  have hYA : pyYearArg (some y) today = y := by simp [pyYearArg, h0]
  unfold getDataUrls
  rw [hYA, if_pos ⟨h1, by omega⟩, if_neg (by omega)]

/-- Witness for C4 at `Y = 2023` with current date October 2025. -/
theorem getDataUrls_past_year_witness :
    getDataUrls (some 2023) ⟨2025, 10⟩ =
      Except.ok ((List.range 12).map (fun k => taxiUrl 2023 (k + 1)), []) :=
  getDataUrls_past_year 2023 ⟨2025, 10⟩ (by decide) (by decide)

/-- Counterexample to C5 as stated: `0` lies outside `[2009, current_year]`,
yet `get_data_urls(0)` does not raise — Python's `if not year` treats the
falsy `0` as an omitted year and substitutes the current year, so the call
returns the current-year URLs (here: June 2024, three months). -/
theorem getDataUrls_year_zero_cex :
    getDataUrls (some 0) ⟨2024, 6⟩ =
      Except.ok ([taxiUrl 2024 1, taxiUrl 2024 2, taxiUrl 2024 3], []) := rfl

/-- C5 (amended): for every *nonzero* year `Y` outside `[2009, current_year]`
the function fails with the year-range `AssertionError` — and, being pure,
it performs no I/O at all on that path — while for every `Y` inside the
range it returns without raising. (`Y = 0` is excluded: it is falsy in
Python and treated as an omitted argument.) -/
theorem getDataUrls_year_range (y : Nat) (today : Date) (hy0 : y ≠ 0) :
    ((y < 2009 ∨ today.year < y) →
      getDataUrls (some y) today = Except.error (yearRangeMsg today.year y)) ∧
    (2009 ≤ y → y ≤ today.year →
      ∃ v, getDataUrls (some y) today = Except.ok v) := by
  have hYA : pyYearArg (some y) today = y := by simp [pyYearArg, hy0]
  constructor
  · intro hout
    unfold getDataUrls
    rw [hYA, if_neg (by omega)]
  · intro ha hb
    unfold getDataUrls
    rw [hYA, if_pos ⟨ha, hb⟩]
    split
    · split
      · exact ⟨_, rfl⟩
      · exact ⟨_, rfl⟩
    · exact ⟨_, rfl⟩

/-- Witness for C5 (amended): with current date October 2025, both
`Y = 2008` and `Y = current_year + 1 = 2026` raise the assertion, and an
in-range `Y = 2015` does not. -/
theorem getDataUrls_year_range_witness :
    getDataUrls (some 2008) ⟨2025, 10⟩ =
      Except.error (yearRangeMsg 2025 2008) ∧
    getDataUrls (some 2026) ⟨2025, 10⟩ =
      Except.error (yearRangeMsg 2025 2026) ∧
    (∃ v, getDataUrls (some 2015) ⟨2025, 10⟩ = Except.ok v) :=
  ⟨(getDataUrls_year_range 2008 ⟨2025, 10⟩ (by decide)).1 (Or.inl (by decide)),
   (getDataUrls_year_range 2026 ⟨2025, 10⟩ (by decide)).1 (Or.inr (by decide)),
   (getDataUrls_year_range 2015 ⟨2025, 10⟩ (by decide)).2 (by decide) (by decide)⟩

/-- C1: for every non-empty batch whose retrievals all succeed, and whatever
the completion order of the concurrent downloads (any permutation of the
task indices), `download_taxi_data` produces its Batch Result — the gathered
sequence of file paths — in the order of the input URLs: position `i` holds
`save_dir / Path(urls[i]).name`. The completion order `order` does not occur
in the result component. -/
theorem downloadTaxiData_batch_result_order (urls : List String)
    (saveDir0 : String) (year? : Option Nat) (today : Date)
    (transport : String → Fetch) (order : List Nat) (fs : FS)
    (hne : urls ≠ [])
    (hsucc : ∀ u ∈ urls, ∃ r, transport u = Fetch.response r)
    (hperm : order.Perm (List.range urls.length)) :
    ∃ fs' evs,
      downloadTaxiData urls saveDir0 year? today transport order fs =
        Except.ok (fs', urls.map (savePath (normSaveDir saveDir0)), evs) := by
  have hvalid : ∀ j ∈ order, j < urls.length := fun j hj =>
    List.mem_range.mp (hperm.mem_iff.mp hj)
  have hgot : (if urls.isEmpty then getDataUrls year? today
      else Except.ok (urls, [])) = Except.ok (urls, []) := by
    simp [List.isEmpty_eq_false.mpr hne]
  exact ⟨_, _, downloadTaxiData_eq_ok urls saveDir0 year? today transport
    order fs urls [] hgot hsucc hvalid⟩

/-- Witness for C1: a two-URL batch with the scrambled completion order
`[1, 0]` still gathers `["d/a", "d/b"]` in request order. -/
theorem downloadTaxiData_batch_result_order_witness :
    (["h/a", "h/b"] : List String) ≠ [] ∧
    ∃ fs' evs,
      downloadTaxiData ["h/a", "h/b"] "d" none ⟨2025, 10⟩ mockTransport
          [1, 0] ⟨[], []⟩ =
        Except.ok (fs', ["d/a", "d/b"], evs) :=
  ⟨by decide,
   by
     exact downloadTaxiData_batch_result_order ["h/a", "h/b"] "d" none
       ⟨2025, 10⟩ mockTransport [1, 0] ⟨[], []⟩ (by decide)
       (fun u _ => ⟨Response.mk 200 [u, "!"], rfl⟩) (by decide)⟩

/-- C10: a falsy `urls` argument (omitted, `None`, or the empty list) is not
an error and does not fetch nothing: the batch is derived by calling
`get_data_urls(year=kwargs.get("year"))`, the derived batch is necessarily
non-empty, and the function proceeds to fetch exactly that batch. -/
theorem downloadTaxiData_derives_batch (saveDir0 : String)
    (year? : Option Nat) (today : Date) (transport : String → Fetch)
    (order : List Nat) (fs : FS) (urls notices : List String)
    (hres : getDataUrls year? today = Except.ok (urls, notices))
    (hsucc : ∀ u ∈ urls, ∃ r, transport u = Fetch.response r)
    (hvalid : ∀ j ∈ order, j < urls.length) :
    urls ≠ [] ∧
    ∃ fs' evs,
      downloadTaxiData [] saveDir0 year? today transport order fs =
        Except.ok (fs', urls.map (savePath (normSaveDir saveDir0)), evs) := by
  refine ⟨getDataUrls_ok_ne_nil year? today urls notices hres, ?_⟩
  have hgot : (if ([] : List String).isEmpty then getDataUrls year? today
      else Except.ok (([] : List String), ([] : List String))) =
        Except.ok (urls, notices) := by
    simpa using hres
  exact ⟨_, _, downloadTaxiData_eq_ok [] saveDir0 year? today transport
    order fs urls notices hgot hsucc hvalid⟩

/-- Witness for C10: the empty `urls` with `year = 2010` fetches the twelve
derived 2010 URLs. -/
theorem downloadTaxiData_derives_batch_witness :
    ((List.range 12).map (fun k => taxiUrl 2010 (k + 1))) ≠ [] ∧
    ∃ fs' evs,
      downloadTaxiData [] "data2" (some 2010) ⟨2025, 10⟩ mockTransport
          (List.range 12) ⟨[], []⟩ =
        Except.ok (fs',
          ((List.range 12).map (fun k => taxiUrl 2010 (k + 1))).map
            (savePath "data2"), evs) :=
  downloadTaxiData_derives_batch "data2" (some 2010) ⟨2025, 10⟩ mockTransport
    (List.range 12) ⟨[], []⟩
    ((List.range 12).map (fun k => taxiUrl 2010 (k + 1))) [] rfl
    (fun u _ => ⟨Response.mk 200 [u, "!"], rfl⟩)
    (by
      intro j hj
      simp only [List.length_map, List.length_range]
      exact List.mem_range.mp hj)

/-- C6: a successful batch of `N` files emits exactly one progress line per
file, the `i`-th (1-based, in result order) reading
`<position>/<total> | Downloaded file: <path>` with both numbers zero-padded
to the digit width of `N`. -/
theorem downloadTaxiData_progress_lines (urls : List String)
    (saveDir0 : String) (year? : Option Nat) (today : Date)
    (transport : String → Fetch) (order : List Nat) (fs : FS)
    (hne : urls ≠ [])
    (hsucc : ∀ u ∈ urls, ∃ r, transport u = Fetch.response r)
    (hperm : order.Perm (List.range urls.length)) :
    ∃ fs' evs,
      downloadTaxiData urls saveDir0 year? today transport order fs =
        Except.ok (fs', urls.map (savePath (normSaveDir saveDir0)), evs) ∧
      evs.filterMap progressOf =
        (List.range urls.length).map (fun i =>
          padZeros (toString urls.length).length (i + 1) ++ "/"
            ++ padZeros (toString urls.length).length urls.length
            ++ " | Downloaded file: "
            ++ savePath (normSaveDir saveDir0) (urls.getD i "")) := by
  have hvalid : ∀ j ∈ order, j < urls.length := fun j hj =>
    List.mem_range.mp (hperm.mem_iff.mp hj)
  have hgot : (if urls.isEmpty then getDataUrls year? today
      else Except.ok (urls, [])) = Except.ok (urls, []) := by
    simp [List.isEmpty_eq_false.mpr hne]
  refine ⟨_, _, downloadTaxiData_eq_ok urls saveDir0 year? today transport
    order fs urls [] hgot hsucc hvalid, ?_⟩
  simp only [List.map_nil, List.nil_append, List.filterMap_append]
  have h1 : (order.map Event.fileWritten).filterMap progressOf = [] := by
    simp [List.filterMap_map, progressOf, Function.comp]
  have h2 :
      ((urls.map (savePath (normSaveDir saveDir0))).enum.map
        (fun p => Event.progressLine
          (formatLine (p.1 + 1) urls.length p.2))).filterMap progressOf =
      (urls.map (savePath (normSaveDir saveDir0))).enum.map
        (fun p => formatLine (p.1 + 1) urls.length p.2) := by
    rw [List.filterMap_map]
    rw [show (progressOf ∘ fun p : Nat × String => Event.progressLine
        (formatLine (p.1 + 1) urls.length p.2)) =
      (some ∘ fun p : Nat × String =>
        formatLine (p.1 + 1) urls.length p.2) from rfl]
    rw [List.filterMap_eq_map]
  rw [h1, h2, List.nil_append,
    enum_map_map_eq_range_map urls (savePath (normSaveDir saveDir0))
      (fun i s => formatLine (i + 1) urls.length s)]
  simp only [formatLine]

/-- Witness for C6: a batch of 12 files; the third progress line reads
`03/12 | Downloaded file: d/3` — positions zero-padded to width 2. -/
theorem downloadTaxiData_progress_lines_witness :
    ∃ fs' evs,
      downloadTaxiData
          ["h/1", "h/2", "h/3", "h/4", "h/5", "h/6",
           "h/7", "h/8", "h/9", "h/10", "h/11", "h/12"]
          "d" none ⟨2025, 10⟩ mockTransport (List.range 12) ⟨[], []⟩ =
        Except.ok (fs',
          ["d/1", "d/2", "d/3", "d/4", "d/5", "d/6",
           "d/7", "d/8", "d/9", "d/10", "d/11", "d/12"], evs) ∧
      evs.filterMap progressOf =
        ["01/12 | Downloaded file: d/1", "02/12 | Downloaded file: d/2",
         "03/12 | Downloaded file: d/3", "04/12 | Downloaded file: d/4",
         "05/12 | Downloaded file: d/5", "06/12 | Downloaded file: d/6",
         "07/12 | Downloaded file: d/7", "08/12 | Downloaded file: d/8",
         "09/12 | Downloaded file: d/9", "10/12 | Downloaded file: d/10",
         "11/12 | Downloaded file: d/11", "12/12 | Downloaded file: d/12"] := by
  exact downloadTaxiData_progress_lines
    ["h/1", "h/2", "h/3", "h/4", "h/5", "h/6",
     "h/7", "h/8", "h/9", "h/10", "h/11", "h/12"]
    "d" none ⟨2025, 10⟩ mockTransport (List.range 12) ⟨[], []⟩
    (by decide) (fun u _ => ⟨Response.mk 200 [u, "!"], rfl⟩)
    (List.Perm.refl _)

/-- Counterexample to C7 as stated: with completion order `[1, 0]` (the
download of `"h/b"`, index 1, finishes first), the trace shows both files
completing *before any* progress line is printed, and the progress lines
then appear in result order — the first line printed is the one for index 0
(`d/a`). Were the lines emitted in completion order (numbered by result
order, as the claim says), the first printed line would be
`2/2 | Downloaded file: d/b`; it is `1/2 | Downloaded file: d/a`. -/
theorem downloadTaxiData_completion_order_cex :
    downloadTaxiData ["h/a", "h/b"] "d" none ⟨2025, 10⟩ mockTransport
        [1, 0] ⟨[], []⟩ =
      Except.ok (FS.mk ["d"] [("d/a", "h/a!"), ("d/b", "h/b!")],
        ["d/a", "d/b"],
        [Event.fileWritten 1, Event.fileWritten 0,
         Event.progressLine "1/2 | Downloaded file: d/a",
         Event.progressLine "2/2 | Downloaded file: d/b"]) ∧
    [Event.fileWritten 1, Event.fileWritten 0,
      Event.progressLine "1/2 | Downloaded file: d/a",
      Event.progressLine "2/2 | Downloaded file: d/b"].filterMap progressOf ≠
      ["2/2 | Downloaded file: d/b", "1/2 | Downloaded file: d/a"] :=
  ⟨rfl, by decide⟩

/-- C7 (amended): during a batch the per-file side effects occur in
completion order (`order.map Event.fileWritten` is a prefix of the trace),
and *all* progress lines are printed only after the join, in final result
order — `for i, result in enumerate(results)` — not in completion order;
each line's number reflects result order. -/
theorem downloadTaxiData_print_after_join (urls : List String)
    (saveDir0 : String) (year? : Option Nat) (today : Date)
    (transport : String → Fetch) (order : List Nat) (fs : FS)
    (hne : urls ≠ [])
    (hsucc : ∀ u ∈ urls, ∃ r, transport u = Fetch.response r)
    (hperm : order.Perm (List.range urls.length)) :
    ∃ fs',
      downloadTaxiData urls saveDir0 year? today transport order fs =
        Except.ok (fs', urls.map (savePath (normSaveDir saveDir0)),
          order.map Event.fileWritten
            ++ (List.range urls.length).map (fun i =>
                Event.progressLine (formatLine (i + 1) urls.length
                  (savePath (normSaveDir saveDir0) (urls.getD i ""))))) := by
  have hvalid : ∀ j ∈ order, j < urls.length := fun j hj =>
    List.mem_range.mp (hperm.mem_iff.mp hj)
  have hgot : (if urls.isEmpty then getDataUrls year? today
      else Except.ok (urls, [])) = Except.ok (urls, []) := by
    simp [List.isEmpty_eq_false.mpr hne]
  have h := downloadTaxiData_eq_ok urls saveDir0 year? today transport
    order fs urls [] hgot hsucc hvalid
  rw [enum_map_map_eq_range_map urls (savePath (normSaveDir saveDir0))
    (fun i s => Event.progressLine (formatLine (i + 1) urls.length s))] at h
  simp only [List.map_nil, List.nil_append] at h
  exact ⟨_, h⟩

/-- Witness for C7 (amended): the two-file batch with completion order
`[1, 0]`; the trace is the two completions followed by the two progress
lines in result order. -/
theorem downloadTaxiData_print_after_join_witness :
    ∃ fs',
      downloadTaxiData ["h/a", "h/b"] "d" none ⟨2025, 10⟩ mockTransport
          [1, 0] ⟨[], []⟩ =
        Except.ok (fs', ["d/a", "d/b"],
          [Event.fileWritten 1, Event.fileWritten 0,
           Event.progressLine "1/2 | Downloaded file: d/a",
           Event.progressLine "2/2 | Downloaded file: d/b"]) := by
  exact downloadTaxiData_print_after_join ["h/a", "h/b"] "d" none
    ⟨2025, 10⟩ mockTransport [1, 0] ⟨[], []⟩ (by decide)
    (fun u _ => ⟨Response.mk 200 [u, "!"], rfl⟩) (by decide)

/-- C2 (amended): a transport-level failure of any single retrieval
propagates — `download_taxi_data` raises and returns no partial Batch
Result. However, a non-success HTTP status is *not* a failure:
`download_single_file` never inspects the status (there is no
`raise_for_status`), so as long as every retrieval yields a response —
whatever its status code — the batch succeeds and the error-page body is
written to the file. -/
theorem downloadTaxiData_failure_propagation (urls : List String)
    (saveDir0 : String) (year? : Option Nat) (today : Date)
    (transport : String → Fetch) (order : List Nat) (fs : FS)
    (hne : urls ≠ [])
    (hperm : order.Perm (List.range urls.length)) :
    ((∃ (i : Nat) (u msg : String),
        urls[i]? = some u ∧ transport u = Fetch.failure msg) →
      ∃ e, downloadTaxiData urls saveDir0 year? today transport order fs =
        Except.error e) ∧
    ((∀ u ∈ urls, ∃ r, transport u = Fetch.response r) →
      ∃ fs' evs,
        downloadTaxiData urls saveDir0 year? today transport order fs =
          Except.ok (fs', urls.map (savePath (normSaveDir saveDir0)), evs)) := by
  have hvalid : ∀ j ∈ order, j < urls.length := fun j hj =>
    List.mem_range.mp (hperm.mem_iff.mp hj)
  have hgot : (if urls.isEmpty then getDataUrls year? today
      else Except.ok (urls, [])) = Except.ok (urls, []) := by
    simp [List.isEmpty_eq_false.mpr hne]
  constructor
  · rintro ⟨i, u, msg, hu, hfail⟩
    have hi : i < urls.length := (List.getElem?_eq_some_iff.mp hu).1
    have hio : i ∈ order := hperm.mem_iff.mpr (List.mem_range.mpr hi)
    obtain ⟨e, he⟩ := runDownloads_error transport (normSaveDir saveDir0)
      urls order (mkdirFS fs (normSaveDir saveDir0)) i u msg hio hu hfail
    refine ⟨e, ?_⟩
    simp only [downloadTaxiData, hgot, mkdir_exist_ok, he]
  · intro hsucc
    exact ⟨_, _, downloadTaxiData_eq_ok urls saveDir0 year? today transport
      order fs urls [] hgot hsucc hvalid⟩

/-- Witness for C2 (amended): a transport failure of the second URL makes the
whole batch raise, while the all-response transport (even with a 404 in it,
see the counterexample) completes with a full Batch Result. -/
theorem downloadTaxiData_failure_propagation_witness :
    (∃ e, downloadTaxiData ["h/a", "h/b"] "d" none ⟨2025, 10⟩
        mockTransportFail [0, 1] ⟨[], []⟩ = Except.error e) ∧
    (∃ fs' evs, downloadTaxiData ["h/a", "h/b"] "d" none ⟨2025, 10⟩
        mockTransport404 [0, 1] ⟨[], []⟩ =
      Except.ok (fs', ["d/a", "d/b"], evs)) :=
  ⟨(downloadTaxiData_failure_propagation ["h/a", "h/b"] "d" none ⟨2025, 10⟩
      mockTransportFail [0, 1] ⟨[], []⟩ (by decide) (by decide)).1
    ⟨1, "h/b", "ConnectError", rfl, rfl⟩,
   by
     exact (downloadTaxiData_failure_propagation ["h/a", "h/b"] "d" none
        ⟨2025, 10⟩ mockTransport404 [0, 1] ⟨[], []⟩ (by decide) (by decide)).2
      (fun u _ => ⟨Response.mk (if u = "h/a" then 404 else 200) [u, "!"], rfl⟩)⟩

/-- Counterexample to C2 as stated: the retrieval of `"h/a"` answers with
the non-success status 404, yet `download_taxi_data` does not fail — it
returns the full Batch Result and writes the 404 response body to `d/a`. -/
theorem downloadTaxiData_nonsuccess_status_cex :
    mockTransport404 "h/a" = Fetch.response (Response.mk 404 ["h/a", "!"]) ∧
    downloadTaxiData ["h/a", "h/b"] "d" none ⟨2025, 10⟩ mockTransport404
        [0, 1] ⟨[], []⟩ =
      Except.ok (FS.mk ["d"] [("d/b", "h/b!"), ("d/a", "h/a!")],
        ["d/a", "d/b"],
        [Event.fileWritten 0, Event.fileWritten 1,
         Event.progressLine "1/2 | Downloaded file: d/a",
         Event.progressLine "2/2 | Downloaded file: d/b"]) :=
  ⟨rfl, rfl⟩

/-- C8: re-running the batch with the same target directory and the same
locators is idempotent at the filesystem interface. Both runs succeed (for
any two completion orders); re-creating the existing directory is literally
a no-op (`mkdir` returns the filesystem unchanged); the second run
overwrites the same filenames — every path holds the same content after the
second run as after the first, and the directory set is unchanged. The
written paths are assumed pairwise distinct (a well-formed batch: no two
locators share a filename). Note the destination files are opened with mode
`"bw"` on both runs — the source's `"ba" if not filepath.exists else "bw"`
condition is always false because `filepath.exists` is an unapplied (truthy)
method — so the second run truncates and rewrites rather than appends. -/
theorem downloadTaxiData_idempotent (urls : List String) (saveDir0 : String)
    (year? : Option Nat) (today : Date) (transport : String → Fetch)
    (order1 order2 : List Nat) (fs : FS)
    (hne : urls ≠ [])
    (hsucc : ∀ u ∈ urls, ∃ r, transport u = Fetch.response r)
    (hnd : (urls.map (savePath (normSaveDir saveDir0))).Nodup)
    (hp1 : order1.Perm (List.range urls.length))
    (hp2 : order2.Perm (List.range urls.length)) :
    ∃ fs1 evs1 fs2 evs2,
      downloadTaxiData urls saveDir0 year? today transport order1 fs =
        Except.ok (fs1, urls.map (savePath (normSaveDir saveDir0)), evs1) ∧
      downloadTaxiData urls saveDir0 year? today transport order2 fs1 =
        Except.ok (fs2, urls.map (savePath (normSaveDir saveDir0)), evs2) ∧
      mkdir fs1 (normSaveDir saveDir0) true true = Except.ok fs1 ∧
      fs2.dirs = fs1.dirs ∧
      (∀ p, readFile fs2 p = readFile fs1 p) := by
  have hvalid1 : ∀ j ∈ order1, j < urls.length := fun j hj =>
    List.mem_range.mp (hp1.mem_iff.mp hj)
  have hvalid2 : ∀ j ∈ order2, j < urls.length := fun j hj =>
    List.mem_range.mp (hp2.mem_iff.mp hj)
  have hgot : (if urls.isEmpty then getDataUrls year? today
      else Except.ok (urls, [])) = Except.ok (urls, []) := by
    simp [List.isEmpty_eq_false.mpr hne]
  have h1 := downloadTaxiData_eq_ok urls saveDir0 year? today transport
    order1 fs urls [] hgot hsucc hvalid1
  have hdir1 : (runFS transport (normSaveDir saveDir0) urls order1
      (mkdirFS fs (normSaveDir saveDir0))).dirs.contains
        (normSaveDir saveDir0) = true := by
    rw [runFS_dirs]
    exact mkdirFS_contains fs (normSaveDir saveDir0)
  have hmk1 : mkdirFS (runFS transport (normSaveDir saveDir0) urls order1
      (mkdirFS fs (normSaveDir saveDir0))) (normSaveDir saveDir0) =
      runFS transport (normSaveDir saveDir0) urls order1
        (mkdirFS fs (normSaveDir saveDir0)) :=
    mkdirFS_of_contains _ _ hdir1
  have h2 := downloadTaxiData_eq_ok urls saveDir0 year? today transport
    order2 (runFS transport (normSaveDir saveDir0) urls order1
      (mkdirFS fs (normSaveDir saveDir0))) urls [] hgot hsucc hvalid2
  rw [hmk1] at h2
  refine ⟨_, _, _, _, h1, h2, ?_, ?_, ?_⟩
  · rw [mkdir_exist_ok, hmk1]
  · exact runFS_dirs transport (normSaveDir saveDir0) urls order2 _
  · intro p
    by_cases hp : ∃ (i : Nat) (u : String),
        urls[i]? = some u ∧ savePath (normSaveDir saveDir0) u = p
    · obtain ⟨i, u, hu, hpu⟩ := hp
      have hi : i < urls.length := (List.getElem?_eq_some_iff.mp hu).1
      have hi1 : i ∈ order1 := hp1.mem_iff.mpr (List.mem_range.mpr hi)
      have hi2 : i ∈ order2 := hp2.mem_iff.mpr (List.mem_range.mpr hi)
      subst hpu
      rw [runFS_read_hit transport (normSaveDir saveDir0) urls hnd order2
          _ i u hi2 hu,
        runFS_read_hit transport (normSaveDir saveDir0) urls hnd order1
          _ i u hi1 hu]
    · push_neg at hp
      exact runFS_read_miss transport (normSaveDir saveDir0) urls order2 _ p
        (fun k _ u hu hc => hp k u hu hc)

/-- Witness for C8: the two-URL batch run twice from the empty filesystem,
with different completion orders. -/
theorem downloadTaxiData_idempotent_witness :
    (["h/a", "h/b"] : List String) ≠ [] ∧
    ∃ fs1 evs1 fs2 evs2,
      downloadTaxiData ["h/a", "h/b"] "d" none ⟨2025, 10⟩ mockTransport
          [0, 1] ⟨[], []⟩ =
        Except.ok (fs1, ["d/a", "d/b"], evs1) ∧
      downloadTaxiData ["h/a", "h/b"] "d" none ⟨2025, 10⟩ mockTransport
          [1, 0] fs1 =
        Except.ok (fs2, ["d/a", "d/b"], evs2) ∧
      mkdir fs1 "d" true true = Except.ok fs1 ∧
      fs2.dirs = fs1.dirs ∧
      (∀ p, readFile fs2 p = readFile fs1 p) :=
  ⟨by decide,
   by
     exact downloadTaxiData_idempotent ["h/a", "h/b"] "d" none ⟨2025, 10⟩
       mockTransport [0, 1] [1, 0] ⟨[], []⟩ (by decide)
       (fun u _ => ⟨Response.mk 200 [u, "!"], rfl⟩) (by decide) (by decide)
       (by decide)⟩

/-- Counterexample to C9 as stated: `download_weather_codes` contains no
directory-creation step; starting from a filesystem in which no directory
exists, its open-for-write fails with `FileNotFoundError` instead of
creating `data` first. -/
theorem downloadWeatherCodes_no_mkdir_cex :
    downloadWeatherCodes "data" "codes" (FS.mk [] []) =
      Except.error "FileNotFoundError: data/weather_codes.json" := rfl

/-- C9 (amended): of the two secondary single-file downloads, only
`download_weather_data` creates the target directory (with parents,
`exist_ok=True`) before opening its destination file — its open-for-write
therefore cannot fail for a missing directory, for any `save_dir` and
starting filesystem. `download_weather_codes` performs no directory
creation: it fails with `FileNotFoundError` whenever `save_dir` is absent,
and succeeds only when `save_dir` already exists. -/
theorem weatherDownloads_dir_creation (saveDir filename body : String)
    (fs : FS) :
    (∃ fs', downloadWeatherData saveDir filename body fs =
        Except.ok (fs', saveDir ++ "/" ++ filename)) ∧
    (fs.dirs.contains saveDir = false →
      downloadWeatherCodes saveDir body fs =
        Except.error ("FileNotFoundError: " ++ saveDir ++ "/"
          ++ "weather_codes.json")) ∧
    (fs.dirs.contains saveDir = true →
      ∃ fs', downloadWeatherCodes saveDir body fs =
        Except.ok (fs', saveDir ++ "/" ++ "weather_codes.json")) := by
  refine ⟨?_, ?_, ?_⟩
  · refine ⟨writeFile (mkdirFS fs saveDir) (saveDir ++ "/" ++ filename)
      body, ?_⟩
    simp only [downloadWeatherData, mkdir_exist_ok,
      openWrite_of_contains (mkdirFS fs saveDir) saveDir filename body
        (mkdirFS_contains fs saveDir)]
  · intro h
    simp only [downloadWeatherCodes, openWrite, h]
    simp
  · intro h
    refine ⟨writeFile fs (saveDir ++ "/" ++ "weather_codes.json") body, ?_⟩
    simp only [downloadWeatherCodes,
      openWrite_of_contains fs saveDir "weather_codes.json" body h]

/-- Witness for C9 (amended): from the empty filesystem,
`download_weather_data` succeeds (creating `data`), while
`download_weather_codes` fails for the missing directory; from a filesystem
where `data` exists, `download_weather_codes` succeeds. -/
theorem weatherDownloads_dir_creation_witness :
    (∃ fs', downloadWeatherData "data" "weather.json" "w" (FS.mk [] []) =
        Except.ok (fs', "data/weather.json")) ∧
    downloadWeatherCodes "data" "codes" (FS.mk [] []) =
      Except.error "FileNotFoundError: data/weather_codes.json" ∧
    (∃ fs', downloadWeatherCodes "data" "codes" (FS.mk ["data"] []) =
        Except.ok (fs', "data/weather_codes.json")) :=
  ⟨by
     exact (weatherDownloads_dir_creation "data" "weather.json" "w"
       (FS.mk [] [])).1,
   by
     exact (weatherDownloads_dir_creation "data" "x" "codes"
       (FS.mk [] [])).2.1 rfl,
   by
     exact (weatherDownloads_dir_creation "data" "x" "codes"
       (FS.mk ["data"] [])).2.2 rfl⟩

end PolarsIntro
